import Mathlib

/-!
Verification development for the voice-assistant backend.

The definitions below are a shallow embedding of the session-orchestration
code: the conversation state machine of `backend/app/brain.py` and the
framing / audio-queue / device-routing logic of `backend/main.py`.

Conventions of the embedding:
* Python strings are Lean `String`s, manipulated as `List Char`.
* Python's regex word character `\w` is modelled as the ASCII word
  characters (letters, digits, underscore); all inputs exercised by the
  claims are ASCII.
* `time.time()` timestamps are modelled as integers (seconds) passed
  explicitly; one call of `process_input` uses a single time value `now`.
  The timeout logic only subtracts and strictly compares timestamps, which
  the integer model preserves.
* The external intent-resolution model call is an oracle argument (its
  parsed outcome), since its network behaviour is outside the program.
-/

/-- ASCII word character, modelling the regex class used by the word
boundaries in the wake/confirmation patterns of `brain.py`. -/
def isWordChar (c : Char) : Bool :=
  (97 ≤ c.toNat && c.toNat ≤ 122) || (65 ≤ c.toNat && c.toNat ≤ 90) ||
  (48 ≤ c.toNat && c.toNat ≤ 57) || c.toNat = 95

/-- Python `str.lower` restricted to ASCII: maps A-Z to a-z. -/
def lowerChar (c : Char) : Char :=
  if 65 ≤ c.toNat ∧ c.toNat ≤ 90 then Char.ofNat (c.toNat + 32) else c

/-- Whitespace characters stripped by Python's `str.strip()` (ASCII part). -/
def isPySpace (c : Char) : Bool :=
  c.toNat = 32 || c.toNat = 9 || c.toNat = 10 ||
  c.toNat = 13 || c.toNat = 11 || c.toNat = 12

/-- The character set of the trailing `.strip(" ,.")` in `_strip_wake_phrase`. -/
def isStripPunct (c : Char) : Bool :=
  c.toNat = 32 || c.toNat = 44 || c.toNat = 46

/-- Drop characters satisfying `p` from both ends, as Python `str.strip`. -/
def stripBoth (p : Char → Bool) (l : List Char) : List Char :=
  ((l.dropWhile p).reverse.dropWhile p).reverse

/-- Python `s.strip()` (whitespace strip) on a Lean string. -/
def py_strip (s : String) : String :=
  String.mk (stripBoth isPySpace s.data)

/-- The apostrophe character (appears in the confirmation phrase list). -/
def apos : Char := Char.ofNat 39

/-- Case-insensitive prefix removal: if lowering `l` starts with the
(lowercase) keyword, return the remainder of `l`. -/
def dropPrefixCI : List Char → List Char → Option (List Char)
  | [], l => some l
  | _ :: _, [] => none
  | k :: ks, c :: cs => if lowerChar c = k then dropPrefixCI ks cs else none

/-- Separator class `[,\s]` of the wake-phrase regexes. -/
def isSepChar (c : Char) : Bool := c.toNat = 44 || isPySpace c

/-- Attempt to match the wake-phrase regex `\b<kw>[,\s]+wink\b` at the head
of `l`.  `prevWord` says whether the character before `l` (in the scanned
string) is a word character, which decides the leading `\b`.  The `[,\s]+`
run is matched greedily; since no separator character can start `wink`,
greedy matching is exact.  Returns the remainder after the match. -/
def tryMatchWake (kw : List Char) (prevWord : Bool) (l : List Char) :
    Option (List Char) :=
  if prevWord then none
  else
    match dropPrefixCI kw l with
    | none => none
    | some l1 =>
      let seps := l1.takeWhile isSepChar
      if seps.isEmpty then none
      else
        match dropPrefixCI ("wink".data) (l1.dropWhile isSepChar) with
        | none => none
        | some l2 =>
          match l2 with
          | [] => some []
          | c :: _ => if isWordChar c then none else some l2

/-- Scanner for `re.sub(pattern, "", text)` with the wake-phrase pattern for
lead word `kw`: removes every non-overlapping match, left to right.  The
fuel argument (initially the length of the list) only serves termination;
every step consumes at least one character of the scanned list. -/
def subWakeGo (kw : List Char) : Nat → Bool → List Char → List Char
  | 0, _, l => l
  | _ + 1, _, [] => []
  | fuel + 1, pw, c :: cs =>
    match tryMatchWake kw pw (c :: cs) with
    | some rest => subWakeGo kw fuel true rest
    | none => c :: subWakeGo kw fuel (isWordChar c) cs

/-- Remove all matches of the wake-phrase pattern for lead word `kw`. -/
def subWake (kw : List Char) (l : List Char) : List Char :=
  subWakeGo kw l.length false l

/-- Scanner for `re.search` with the wake-phrase pattern for lead word
`kw`: does any position of the list match? -/
def searchWakeGo (kw : List Char) : Nat → Bool → List Char → Bool
  | 0, _, _ => false
  | _ + 1, _, [] => false
  | fuel + 1, pw, c :: cs =>
    (tryMatchWake kw pw (c :: cs)).isSome || searchWakeGo kw fuel (isWordChar c) cs

/-- Does the wake-phrase pattern for lead word `kw` match anywhere? -/
def searchWake (kw : List Char) (l : List Char) : Bool :=
  searchWakeGo kw l.length false l

/-- The lead words of the `WAKE_PHRASES` regex list of `brain.py`: the
patterns are `\bhey[,\s]+wink\b`, `\bhi[,\s]+wink\b`, `\bokay[,\s]+wink\b`,
`\bok[,\s]+wink\b`, in this order. -/
def WAKE_PHRASES : List (List Char) :=
  ["hey".data, "hi".data, "okay".data, "ok".data]

/-- `_contains_wake_phrase` of `brain.py`: the text is lowercased and each
wake pattern searched; equivalently, case-insensitive search. -/
def contains_wake_phrase (s : String) : Bool :=
  WAKE_PHRASES.any (fun kw => searchWake kw s.data)

/-- `_strip_wake_phrase` of `brain.py`: each wake pattern is removed in
turn (case-insensitively, `re.sub` with empty replacement), then the result
is stripped of spaces, commas and periods. -/
def strip_wake_phrase (s : String) : String :=
  String.mk (stripBoth isStripPunct (WAKE_PHRASES.foldl (fun l kw => subWake kw l) s.data))

/-- Does the (already lowercased, stripped) text start with keyword `kw`
followed by a word boundary — the regex `^<kw>\b`? -/
def hasPrefixWordB : List Char → List Char → Bool
  | [], [] => true
  | [], c :: _ => !isWordChar c
  | _ :: _, [] => false
  | k :: ks, c :: cs => k = c && hasPrefixWordB ks cs

/-- The `CONFIRMATION_PATTERNS` of `brain.py`, each regex `^<phrase>\b`
represented by its literal phrase. -/
def CONFIRMATION_PATTERNS : List (List Char) :=
  ["yes".data, "yeah".data, "yep".data, "yup".data, "sure".data,
   "ok".data, "okay".data, "do it".data, "go ahead".data, "please".data,
   "go for it".data, "sounds good".data,
   "let".data ++ [apos] ++ "s do it".data, "absolutely".data]

/-- The `DENIAL_PATTERNS` of `brain.py`. -/
def DENIAL_PATTERNS : List (List Char) :=
  ["no".data, "nope".data, "nah".data, "nevermind".data, "never mind".data,
   "cancel".data, "don".data ++ [apos] ++ "t".data, "stop".data, "wait".data,
   "hold on".data]

/-- `_is_confirmation` of `brain.py`: lowercase, strip whitespace, then
test each anchored confirmation pattern. -/
def is_confirmation (s : String) : Bool :=
  let t := stripBoth isPySpace (s.data.map lowerChar)
  CONFIRMATION_PATTERNS.any (fun kw => hasPrefixWordB kw t)

/-- `_is_denial` of `brain.py`. -/
def is_denial (s : String) : Bool :=
  let t := stripBoth isPySpace (s.data.map lowerChar)
  DENIAL_PATTERNS.any (fun kw => hasPrefixWordB kw t)

/-- `MAX_HISTORY_TURNS` of `brain.py`. -/
def MAX_HISTORY_TURNS : Nat := 10

/-- `CONVERSATION_TIMEOUT` of `brain.py` (seconds). -/
def CONVERSATION_TIMEOUT : Int := 30

/-- The `PendingAction` dataclass of `brain.py`. -/
structure PendingAction where
  device_id : String
  goal : String
  task_type : String := "laptop"
deriving DecidableEq, Repr

/-- One entry of `Conversation.messages`, mirroring the Python dicts
`\x7b"role": ..., "content": ...\x7d`. -/
structure Message where
  role : String
  content : String
deriving DecidableEq, Repr

/-- The `Conversation` dataclass of `brain.py`. -/
structure Conversation where
  messages : List Message := []
  last_interaction : Int := 0
  is_active : Bool := false
  pending_action : Option PendingAction := none
deriving DecidableEq, Repr

/-- `Conversation._trim`: keep only the last `MAX_HISTORY_TURNS * 2`
messages (`self.messages[-max_messages:]`). -/
def Conversation.trim (c : Conversation) : Conversation :=
  let max_messages := MAX_HISTORY_TURNS * 2
  if c.messages.length > max_messages then
    { c with messages := c.messages.drop (c.messages.length - max_messages) }
  else c

/-- `Conversation.add_user_message`; `time.time()` is the argument `now`. -/
def Conversation.add_user_message (now : Int) (content : String) (c : Conversation) :
    Conversation :=
  Conversation.trim
    { c with messages := c.messages ++ [⟨"user", content⟩], last_interaction := now }

/-- `Conversation.add_assistant_message`. -/
def Conversation.add_assistant_message (now : Int) (content : String) (c : Conversation) :
    Conversation :=
  Conversation.trim
    { c with messages := c.messages ++ [⟨"assistant", content⟩], last_interaction := now }

/-- `Conversation.check_active`: returns the boolean result together with
the (possibly) mutated conversation — on timeout both the activation flag
and the pending action are dropped. -/
def Conversation.check_active (now : Int) (c : Conversation) : Bool × Conversation :=
  if c.is_active = false then (false, c)
  else if now - c.last_interaction > CONVERSATION_TIMEOUT then
    (false, { c with is_active := false, pending_action := none })
  else (true, c)

/-- `Conversation.activate`. -/
def Conversation.activate (now : Int) (c : Conversation) : Conversation :=
  { c with is_active := true, last_interaction := now }

/-- `Conversation.set_pending_action`. -/
def Conversation.set_pending_action (a : PendingAction) (c : Conversation) :
    Conversation :=
  { c with pending_action := some a }

/-- `Conversation.clear_pending_action`. -/
def Conversation.clear_pending_action (c : Conversation) : Conversation :=
  { c with pending_action := none }

/-- The `BrainResponse` union of `brain.py`: `IgnoredResponse`,
`SimpleResponse`, `DeviceActionResponse`. -/
inductive BrainResponse
  | ignored
  | simple (answer : String)
  | deviceAction (answer device_id goal task_type : String)
deriving DecidableEq, Repr

/-- The parsed outcome of the external intent-resolution call of
`process_input` (everything from the OpenRouter request to the JSON
parsing of its reply): either a plain answer — covering the
unparseable-reply fallback and the `"answer"`-only reply — or an answer
with a `proposed_action`. -/
inductive LLMOutcome
  | plain (answer : String)
  | proposed (answer : String) (action : PendingAction)
deriving DecidableEq, Repr

/-- The proposal carried by an intent-resolution outcome, if any. -/
def LLMOutcome.proposal : LLMOutcome → Option PendingAction
  | .plain _ => none
  | .proposed _ pa => some pa

/-- Result of one `process_input` call: the updated conversation, the
returned `BrainResponse`, and — when intent resolution was reached — the
clean transcript that was sent to it (`llmQuery`). -/
structure ProcessResult where
  conversation : Conversation
  response : BrainResponse
  llmQuery : Option String
deriving DecidableEq, Repr

/-- The clean transcript of `process_input` (line 344 of `brain.py`):
wake-phrase-stripped when a wake phrase is present. -/
def clean_transcript (transcript : String) : String :=
  if contains_wake_phrase transcript then strip_wake_phrase transcript else transcript

/-- The tail of `process_input` from the intent-resolution call on: the
oracle's answer is recorded in history; a proposed action is stored as the
new pending action; the clean transcript is what the model receives. -/
def llmBranch (now : Int) (transcript clean : String) (oracle : LLMOutcome)
    (c : Conversation) : ProcessResult :=
  match oracle with
  | .plain ans =>
    ⟨(c.add_user_message now transcript).add_assistant_message now ans,
     .simple ans, some clean⟩
  | .proposed ans pa =>
    ⟨((c.set_pending_action pa).add_user_message now transcript).add_assistant_message
       now ans,
     .simple ans, some clean⟩

/-- `process_input` of `brain.py`, specialised to a present conversation
(as in the `/ws` session handler, which always passes one).  The network
call to the intent model is abstracted by `oracle`; frames, device list and
task status only feed that call and are omitted. -/
def process_input (now : Int) (transcript : String) (oracle : LLMOutcome)
    (conversation : Conversation) : ProcessResult :=
  let has_wake_phrase := contains_wake_phrase transcript
  let checked := conversation.check_active now
  let is_active := checked.1
  let conv1 := checked.2
  if !has_wake_phrase && !is_active then ⟨conv1, .ignored, none⟩
  else
    let conv2 := if has_wake_phrase then conv1.activate now else conv1
    let clean := clean_transcript transcript
    if py_strip clean = "" then
      let answer := "Yes?"
      ⟨(conv2.add_user_message now transcript).add_assistant_message now answer,
       .simple answer, none⟩
    else
      match conv2.pending_action with
      | some pending =>
        if is_confirmation clean then
          let answer := "On it."
          ⟨((conv2.add_user_message now transcript).add_assistant_message
              now answer).clear_pending_action,
           .deviceAction answer pending.device_id pending.goal pending.task_type,
           none⟩
        else if is_denial clean then
          let answer := "Okay, nevermind."
          ⟨((conv2.add_user_message now transcript).add_assistant_message
              now answer).clear_pending_action,
           .simple answer, none⟩
        else llmBranch now transcript clean oracle conv2.clear_pending_action
      | none => llmBranch now transcript clean oracle conv2

/-- `maxsize` of the audio `asyncio.Queue` in `ws_phone`. -/
def AUDIO_QUEUE_MAXSIZE : Nat := 50

/-- The lossy audio push of `ws_phone` (lines 400-403 of `main.py`): if the
queue is full (`qsize() >= maxsize`), the oldest chunk is taken off with
`get_nowait()` before the new chunk is put.  The queue is a FIFO list,
oldest first; a byte string is a `List Nat`. -/
def pushAudioChunk (queue : List (List Nat)) (payload : List Nat) :
    List (List Nat) :=
  let q1 := if AUDIO_QUEUE_MAXSIZE ≤ queue.length then queue.drop 1 else queue
  q1 ++ [payload]

/-- `toNat` pair to a signed 16-bit sample, little-endian, as
`array("h").frombytes` on a little-endian machine. -/
def toInt16 (lo hi : Nat) : Int :=
  let v := lo + 256 * hi
  if 32768 ≤ v then (v : Int) - 65536 else (v : Int)

/-- The samples of a byte string, two bytes at a time. -/
def pcm16Samples : List Nat → List Int
  | lo :: hi :: rest => toInt16 lo hi :: pcm16Samples rest
  | _ => []

/-- `pcm16_peak` of `main.py`: maximum absolute sample value. -/
def pcm16_peak (pcm : List Nat) : Nat :=
  if pcm.length < 2 then 0
  else
    let pcm1 := if pcm.length % 2 = 1 then pcm.dropLast else pcm
    (pcm16Samples pcm1).foldl (fun m s => max m s.natAbs) 0

/-- The `PendingBinaryPayload` dataclass of `main.py`. -/
structure PendingBinaryPayload where
  payload_type : String
  expected_byte_length : Nat
  format : Option String := none
  rate : Option Nat := none
deriving DecidableEq, Repr

/-- A `laptop_status` message sent to the client by `send_status`. -/
structure StatusEmit where
  state : String
  message : String
deriving DecidableEq, Repr

/-- The per-connection state touched by the binary-frame arm of the
`ws_phone` read loop. -/
structure PhoneChannelState where
  pending : Option PendingBinaryPayload := none
  latest_jpeg_frame : Option (List Nat) := none
  audio_queue : List (List Nat) := []
  audio_chunk_count : Nat := 0
deriving DecidableEq, Repr

/-- The binary-frame arm of the `ws_phone` read loop (lines 381-405 of
`main.py`).  A frame with no pending declaration is dropped silently; a
length mismatch discards the declaration and emits an error status; a
matching frame is routed by declared type (video replaces the latest
frame, audio is pushed on the queue, with a debug status every 50th
chunk).  The function is total: every branch continues the connection. -/
def handleBinaryFrame (st : PhoneChannelState) (payload : List Nat) :
    PhoneChannelState × List StatusEmit :=
  match st.pending with
  | none => (st, [])
  | some p =>
    if payload.length ≠ p.expected_byte_length then
      ({ st with pending := none }, [⟨"error", "Binary length mismatch"⟩])
    else if p.payload_type = "video_frame" then
      ({ st with latest_jpeg_frame := some payload, pending := none }, [])
    else if p.payload_type = "pcm_audio" then
      let count := st.audio_chunk_count + 1
      let emits : List StatusEmit :=
        if count % 50 = 0 then
          [⟨"debug", "pcm chunk bytes=" ++ toString payload.length ++
              " peak=" ++ toString (pcm16_peak payload)⟩]
        else []
      ({ st with audio_chunk_count := count,
                 audio_queue := pushAudioChunk st.audio_queue payload,
                 pending := none }, emits)
    else ({ st with pending := none }, [])

/-- Insertion into a Python dict modelled as an association list: an
existing key keeps its position and gets the new value, a new key is
appended. -/
def dictSet {α : Type} : List (String × α) → String → α → List (String × α)
  | [], k, v => [(k, v)]
  | (k', v') :: rest, k, v =>
    if k' = k then (k, v) :: rest else (k', v') :: dictSet rest k v

/-- Python dict key membership. -/
def dictContains {α : Type} (d : List (String × α)) (k : String) : Bool :=
  d.any (fun e => e.1 = k)

/-- The two process-wide registries of `main.py`: `connected_devices`
(device id → live connection) and `device_status_callbacks` (device id →
status callback).  Connection handles and callback closures are opaque to
the routing logic and are modelled as numeric identifiers. -/
structure DeviceRouterState where
  connected_devices : List (String × Nat) := []
  device_status_callbacks : List (String × Nat) := []
deriving DecidableEq, Repr

/-- Result of `send_task_to_device`: the returned boolean, the registries
after the call, and the `laptop_task` payloads `(device_id, goal)` that
were delivered. -/
structure SendResult where
  ok : Bool
  state : DeviceRouterState
  sent_messages : List (String × String)
deriving DecidableEq, Repr

/-- `send_task_to_device` of `main.py`.  An unregistered device id returns
`False` at once, before any send or registry write.  Otherwise the status
callback for the device is replaced and the goal is sent; a send failure
(the `except` arm, abstracted by `sendSucceeds = false`) still returns
`False` but leaves the new callback registered. -/
def send_task_to_device (st : DeviceRouterState) (device_id goal : String)
    (on_status : Nat) (sendSucceeds : Bool) : SendResult :=
  if !dictContains st.connected_devices device_id then ⟨false, st, []⟩
  else
    let st1 := { st with
      device_status_callbacks := dictSet st.device_status_callbacks device_id on_status }
    if sendSucceeds then ⟨true, st1, [(device_id, goal)]⟩
    else ⟨false, st1, []⟩

/-- The `TaskStatus` dataclass of `main.py`. -/
structure TaskStatus where
  goal : String
  device_id : String
  status : String := "queued"
  message : String := ""
deriving DecidableEq, Repr

/-- Result of the device-action tail of `on_final`. -/
structure DispatchOutcome where
  current_task : TaskStatus
  router : DeviceRouterState
  sent : Bool
  sent_messages : List (String × String)
  emits : List StatusEmit
deriving DecidableEq, Repr

/-- The device-action tail of `on_final` in `ws_phone` (lines 312-344 of
`main.py`): create the queued `TaskStatus`, emit the queued status, call
`send_task_to_device`, and on failure mark the task failed with message
"Device not connected" and emit a warning status. -/
def dispatchDeviceAction (router : DeviceRouterState)
    (response_device_id response_goal : String) (on_status : Nat)
    (sendSucceeds : Bool) : DispatchOutcome :=
  let task0 : TaskStatus :=
    { goal := response_goal, device_id := response_device_id, status := "queued" }
  let emits0 : List StatusEmit :=
    [⟨"queued", "[" ++ response_device_id ++ "] " ++ response_goal⟩]
  let r := send_task_to_device router response_device_id response_goal
    on_status sendSucceeds
  if r.ok then ⟨task0, r.state, true, r.sent_messages, emits0⟩
  else
    ⟨{ task0 with status := "failed", message := "Device not connected" },
     r.state, false, r.sent_messages,
     emits0 ++ [⟨"warning", "Device " ++ response_device_id ++ " not connected"⟩]⟩

/-! ### Auxiliary definitions used by the theorems -/

/-- The last `n` elements of a list, in order (`l[-n:]` in Python). -/
def lastN {α : Type} (n : Nat) (l : List α) : List α := l.drop (l.length - n)

/-- A user- or assistant-message append, for reasoning about arbitrary
sequences of history operations. -/
inductive HistOp
  | user (content : String)
  | assistant (content : String)
deriving DecidableEq, Repr

/-- The message record an operation appends. -/
def HistOp.message : HistOp → Message
  | .user s => ⟨"user", s⟩
  | .assistant s => ⟨"assistant", s⟩

/-- Run one history operation on a conversation. -/
def applyHistOp (now : Int) (c : Conversation) : HistOp → Conversation
  | .user s => c.add_user_message now s
  | .assistant s => c.add_assistant_message now s

/-- Run a sequence of history operations on a conversation. -/
def applyHistOps (now : Int) (c : Conversation) (ops : List HistOp) :
    Conversation :=
  ops.foldl (applyHistOp now) c

/-- The scenario transcript of C5 (built without an apostrophe literal). -/
def c5Transcript : String :=
  "hey wink, what" ++ String.mk [apos] ++ "s two plus two"

/-- The expected clean transcript of the C5 scenario. -/
def c5Clean : String := "what" ++ String.mk [apos] ++ "s two plus two"


/-! ### Basic facts about the conversation operations -/

/-- `_trim` on the bare message list, for reasoning about history. -/
def trimMessages (l : List Message) : List Message :=
  let max_messages := MAX_HISTORY_TURNS * 2
  if l.length > max_messages then l.drop (l.length - max_messages) else l

theorem Conversation.trim_messages (c : Conversation) :
    c.trim.messages = trimMessages c.messages := by
  rw [Conversation.trim, trimMessages]
  split <;> rfl

@[simp] theorem Conversation.trim_is_active (c : Conversation) :
    c.trim.is_active = c.is_active := by
  rw [Conversation.trim]; split <;> rfl

@[simp] theorem Conversation.trim_last_interaction (c : Conversation) :
    c.trim.last_interaction = c.last_interaction := by
  rw [Conversation.trim]; split <;> rfl

@[simp] theorem Conversation.trim_pending_action (c : Conversation) :
    c.trim.pending_action = c.pending_action := by
  rw [Conversation.trim]; split <;> rfl

@[simp] theorem Conversation.add_user_message_is_active
    (now : Int) (s : String) (c : Conversation) :
    (c.add_user_message now s).is_active = c.is_active := by
  simp [Conversation.add_user_message]

@[simp] theorem Conversation.add_user_message_last_interaction
    (now : Int) (s : String) (c : Conversation) :
    (c.add_user_message now s).last_interaction = now := by
  simp [Conversation.add_user_message]

@[simp] theorem Conversation.add_user_message_pending_action
    (now : Int) (s : String) (c : Conversation) :
    (c.add_user_message now s).pending_action = c.pending_action := by
  simp [Conversation.add_user_message]

theorem Conversation.add_user_message_messages
    (now : Int) (s : String) (c : Conversation) :
    (c.add_user_message now s).messages =
      trimMessages (c.messages ++ [⟨"user", s⟩]) := by
  simp [Conversation.add_user_message, Conversation.trim_messages]

@[simp] theorem Conversation.add_assistant_message_is_active
    (now : Int) (s : String) (c : Conversation) :
    (c.add_assistant_message now s).is_active = c.is_active := by
  simp [Conversation.add_assistant_message]

@[simp] theorem Conversation.add_assistant_message_last_interaction
    (now : Int) (s : String) (c : Conversation) :
    (c.add_assistant_message now s).last_interaction = now := by
  simp [Conversation.add_assistant_message]

@[simp] theorem Conversation.add_assistant_message_pending_action
    (now : Int) (s : String) (c : Conversation) :
    (c.add_assistant_message now s).pending_action = c.pending_action := by
  simp [Conversation.add_assistant_message]

theorem Conversation.add_assistant_message_messages
    (now : Int) (s : String) (c : Conversation) :
    (c.add_assistant_message now s).messages =
      trimMessages (c.messages ++ [⟨"assistant", s⟩]) := by
  simp [Conversation.add_assistant_message, Conversation.trim_messages]

@[simp] theorem Conversation.activate_is_active (now : Int) (c : Conversation) :
    (c.activate now).is_active = true := rfl

@[simp] theorem Conversation.activate_pending_action (now : Int) (c : Conversation) :
    (c.activate now).pending_action = c.pending_action := rfl

@[simp] theorem Conversation.activate_messages (now : Int) (c : Conversation) :
    (c.activate now).messages = c.messages := rfl

@[simp] theorem Conversation.clear_pending_action_pending (c : Conversation) :
    c.clear_pending_action.pending_action = none := rfl

@[simp] theorem Conversation.clear_pending_action_is_active (c : Conversation) :
    c.clear_pending_action.is_active = c.is_active := rfl

@[simp] theorem Conversation.clear_pending_action_last (c : Conversation) :
    c.clear_pending_action.last_interaction = c.last_interaction := rfl

@[simp] theorem Conversation.set_pending_action_pending
    (a : PendingAction) (c : Conversation) :
    (c.set_pending_action a).pending_action = some a := rfl

@[simp] theorem Conversation.set_pending_action_is_active
    (a : PendingAction) (c : Conversation) :
    (c.set_pending_action a).is_active = c.is_active := rfl

@[simp] theorem Conversation.check_active_snd_messages (now : Int) (c : Conversation) :
    (c.check_active now).2.messages = c.messages := by
  rw [Conversation.check_active]
  split
  · rfl
  · split <;> rfl

@[simp] theorem Conversation.check_active_snd_last (now : Int) (c : Conversation) :
    (c.check_active now).2.last_interaction = c.last_interaction := by
  rw [Conversation.check_active]
  split
  · rfl
  · split <;> rfl

/-- If the conversation has not timed out, `check_active` neither reports a
timeout nor mutates anything: its result is the activation flag itself. -/
theorem Conversation.check_active_fresh (now : Int) (c : Conversation)
    (hfresh : c.is_active = true → now - c.last_interaction ≤ CONVERSATION_TIMEOUT) :
    c.check_active now = (c.is_active, c) := by
  rw [Conversation.check_active]
  rcases ha : c.is_active
  · simp
  · rw [if_neg (by simp), if_neg (not_lt.mpr (hfresh ha))]

/-! ### C2: transcripts without a wake phrase at a dormant session are
ignored with no history mutation -/

/-- Claim C2: a final transcript with no wake phrase, arriving when the
conversation is dormant (never activated, or more than
`CONVERSATION_TIMEOUT` seconds past the last interaction), yields
`IgnoredResponse`; the message history is untouched, no reply is produced
and intent resolution is not called. -/
theorem dormant_no_wake_is_ignored (now : Int) (transcript : String)
    (oracle : LLMOutcome) (conv : Conversation)
    (hw : contains_wake_phrase transcript = false)
    (hd : conv.is_active = false ∨
      CONVERSATION_TIMEOUT < now - conv.last_interaction) :
    (process_input now transcript oracle conv).response = .ignored ∧
    (process_input now transcript oracle conv).conversation.messages =
      conv.messages ∧
    (process_input now transcript oracle conv).llmQuery = none := by
  have hact : (conv.check_active now).1 = false := by
    rw [Conversation.check_active]
    rcases ha : conv.is_active
    · simp
    · rcases hd with h | h
      · rw [ha] at h; cases h
      · rw [if_neg (by simp), if_pos h]
  refine ⟨?_, ?_, ?_⟩ <;>
    simp [process_input, hw, hact]

/-- Witness for C2 at a concrete dormant session. -/
theorem dormant_no_wake_is_ignored_witness :
    (process_input 3 "what time is it" (.plain "Noon.") {}).response
        = .ignored ∧
    (process_input 3 "what time is it" (.plain "Noon.") {}).conversation.messages
        = Conversation.messages {} ∧
    (process_input 3 "what time is it" (.plain "Noon.") {}).llmQuery = none :=
  dormant_no_wake_is_ignored 3 "what time is it" (.plain "Noon.") {}
    (by decide) (Or.inl rfl)

/-! ### C9: a timed-out activity check drops the pending action -/

/-- Claim C9: `check_active` on an active conversation whose last
interaction lies more than `CONVERSATION_TIMEOUT` seconds in the past
returns `False` and leaves the activation flag cleared and the pending
action dropped. -/
theorem check_active_timeout_clears (now : Int) (conv : Conversation)
    (ha : conv.is_active = true)
    (ht : CONVERSATION_TIMEOUT < now - conv.last_interaction) :
    conv.check_active now =
      (false, { conv with is_active := false, pending_action := none }) := by
  rw [Conversation.check_active]
  rw [if_neg (by simp [ha]), if_pos ht]

/-- Witness for C9 at a concrete stale conversation. -/
theorem check_active_timeout_clears_witness :
    Conversation.check_active 31
        { last_interaction := 0, is_active := true,
          pending_action := some ⟨"laptop-1", "open chrome", "laptop"⟩ } =
      (false, { last_interaction := 0, is_active := false,
                pending_action := none }) :=
  check_active_timeout_clears 31
    { last_interaction := 0, is_active := true,
      pending_action := some ⟨"laptop-1", "open chrome", "laptop"⟩ }
    rfl (by decide)

/-! ### C6: the lossy audio push is bounded and keeps the newest chunk -/

/-- Claim C6: pushing a chunk on a queue holding at most
`AUDIO_QUEUE_MAXSIZE` chunks keeps it within capacity; the pushed chunk is
always the newest retained element; a full queue evicts exactly its oldest
chunk; and the `put` always happens on a queue with room (the producer is
never blocked). -/
theorem audio_push_bounded (q : List (List Nat)) (c : List Nat)
    (h : q.length ≤ AUDIO_QUEUE_MAXSIZE) :
    (pushAudioChunk q c).length ≤ AUDIO_QUEUE_MAXSIZE ∧
    (pushAudioChunk q c).getLast? = some c ∧
    (q.length = AUDIO_QUEUE_MAXSIZE → pushAudioChunk q c = q.drop 1 ++ [c]) ∧
    (if AUDIO_QUEUE_MAXSIZE ≤ q.length then q.drop 1 else q).length
      < AUDIO_QUEUE_MAXSIZE := by
  refine ⟨?_, ?_, ?_, ?_⟩
  · rw [pushAudioChunk]
    simp only [AUDIO_QUEUE_MAXSIZE] at h ⊢
    split <;> simp <;> omega
  · rw [pushAudioChunk]
    exact List.getLast?_concat _
  · intro hfull
    rw [pushAudioChunk]
    rw [if_pos (le_of_eq hfull.symm)]
  · simp only [AUDIO_QUEUE_MAXSIZE] at h ⊢
    by_cases hq : 50 ≤ q.length
    · rw [if_pos hq]
      simp only [List.length_drop]
      omega
    · rw [if_neg hq]
      omega

/-- Witness for C6 at a concrete full queue. -/
theorem audio_push_bounded_witness :
    (pushAudioChunk (List.replicate 50 [7]) [9]).length ≤ AUDIO_QUEUE_MAXSIZE ∧
    (pushAudioChunk (List.replicate 50 [7]) [9]).getLast? = some [9] ∧
    ((List.replicate 50 ([7] : List Nat)).length = AUDIO_QUEUE_MAXSIZE →
      pushAudioChunk (List.replicate 50 [7]) [9] =
        (List.replicate 50 ([7] : List Nat)).drop 1 ++ [[9]]) ∧
    (if AUDIO_QUEUE_MAXSIZE ≤ (List.replicate 50 ([7] : List Nat)).length
     then (List.replicate 50 ([7] : List Nat)).drop 1
     else List.replicate 50 [7]).length < AUDIO_QUEUE_MAXSIZE :=
  audio_push_bounded (List.replicate 50 [7]) [9] (by decide)

/-! ### C7: binary frames with a length mismatch are rejected -/

/-- Claim C7: a binary frame whose byte length differs from the length
declared by the pending envelope is rejected — an error status is emitted,
the declaration is discarded, and neither the latest video frame nor the
audio queue (nor the chunk counter) is touched; the handler returns
normally, so the connection continues. -/
theorem binary_length_mismatch_rejected (st : PhoneChannelState)
    (payload : List Nat) (p : PendingBinaryPayload)
    (hp : st.pending = some p)
    (hlen : payload.length ≠ p.expected_byte_length) :
    handleBinaryFrame st payload =
      ({ st with pending := none }, [⟨"error", "Binary length mismatch"⟩]) := by
  rw [handleBinaryFrame, hp]
  simp [hlen]

/-- Witness for C7 at a concrete mismatching frame. -/
theorem binary_length_mismatch_rejected_witness :
    handleBinaryFrame
        { pending := some { payload_type := "pcm_audio", expected_byte_length := 4 },
          latest_jpeg_frame := some [1], audio_queue := [[2]],
          audio_chunk_count := 5 }
        [10, 11] =
      ({ pending := none, latest_jpeg_frame := some [1], audio_queue := [[2]],
         audio_chunk_count := 5 },
       [⟨"error", "Binary length mismatch"⟩]) :=
  binary_length_mismatch_rejected _ [10, 11]
    { payload_type := "pcm_audio", expected_byte_length := 4 } rfl (by decide)

/-! ### C8: dispatch to an unregistered device fails fast -/

/-- Claim C8: when a device action targets a device id with no registered
connection, `send_task_to_device` returns `False` without sending anything,
and the session marks the just-created `TaskStatus` as failed with message
"Device not connected" and emits a warning status (after the initial
queued status). -/
theorem dispatch_unregistered_fails (router : DeviceRouterState)
    (device_id goal : String) (on_status : Nat) (sendSucceeds : Bool)
    (h : dictContains router.connected_devices device_id = false) :
    dispatchDeviceAction router device_id goal on_status sendSucceeds =
      ⟨{ goal := goal, device_id := device_id, status := "failed",
         message := "Device not connected" },
       router, false, [],
       [⟨"queued", "[" ++ device_id ++ "] " ++ goal⟩,
        ⟨"warning", "Device " ++ device_id ++ " not connected"⟩]⟩ := by
  rw [dispatchDeviceAction, send_task_to_device]
  simp [h]

/-- Witness for C8: dispatch to `laptop-1` when only `desk-2` is
registered. -/
theorem dispatch_unregistered_fails_witness :
    dispatchDeviceAction { connected_devices := [("desk-2", 4)] }
        "laptop-1" "open chrome" 9 true =
      ⟨{ goal := "open chrome", device_id := "laptop-1", status := "failed",
         message := "Device not connected" },
       { connected_devices := [("desk-2", 4)] }, false, [],
       [⟨"queued", "[laptop-1] open chrome"⟩,
        ⟨"warning", "Device laptop-1 not connected"⟩]⟩ :=
  dispatch_unregistered_fails { connected_devices := [("desk-2", 4)] }
    "laptop-1" "open chrome" 9 true (by decide)

/-! ### C10: the unregistered path leaves both registries untouched -/

/-- Claim C10: for a device id absent from the connected-devices registry,
`send_task_to_device` returns `False` and changes neither registry and
sends nothing; the status callback is replaced exactly when the device is
registered at dispatch time. -/
theorem send_task_unregistered_frame (st : DeviceRouterState)
    (device_id goal : String) (on_status : Nat) (sendSucceeds : Bool) :
    (dictContains st.connected_devices device_id = false →
      send_task_to_device st device_id goal on_status sendSucceeds =
        ⟨false, st, []⟩) ∧
    (dictContains st.connected_devices device_id = true →
      (send_task_to_device st device_id goal on_status sendSucceeds).state =
        { st with device_status_callbacks :=
            dictSet st.device_status_callbacks device_id on_status }) := by
  constructor
  · intro h
    rw [send_task_to_device]
    simp [h]
  · intro h
    rw [send_task_to_device]
    rcases sendSucceeds <;> simp [h]

/-- Witness for C10 at a concrete registry. -/
theorem send_task_unregistered_frame_witness :
    send_task_to_device
        { connected_devices := [("desk-2", 4)],
          device_status_callbacks := [("desk-2", 8)] }
        "laptop-1" "open chrome" 9 true =
      ⟨false,
       { connected_devices := [("desk-2", 4)],
         device_status_callbacks := [("desk-2", 8)] }, []⟩ :=
  (send_task_unregistered_frame
      { connected_devices := [("desk-2", 4)],
        device_status_callbacks := [("desk-2", 8)] }
      "laptop-1" "open chrome" 9 true).1 (by decide)

/-! ### C4: the message history is bounded and keeps the newest messages -/

theorem lastN_length {α : Type} (n : Nat) (l : List α) :
    (lastN n l).length = min n l.length := by
  simp [lastN]
  omega

theorem lastN_of_le {α : Type} (n : Nat) (l : List α) (h : l.length ≤ n) :
    lastN n l = l := by
  have : l.length - n = 0 := by omega
  simp [lastN, this]

/-- One trimmed append step, generically: appending one element to a
suffix window of size `N` and re-trimming to `N` equals the suffix window
of the whole appended list. -/
theorem lastN_append_one {α : Type} (N : Nat) (hNpos : 0 < N) (L : List α)
    (m : α) :
    (if (lastN N L ++ [m]).length > N
     then (lastN N L ++ [m]).drop ((lastN N L ++ [m]).length - N)
     else lastN N L ++ [m]) = lastN N (L ++ [m]) := by
  have hlen : (lastN N L).length = min N L.length := lastN_length N L
  have e1 : (lastN N L ++ [m]).length = (lastN N L).length + 1 := by simp
  have e2 : (L ++ [m]).length = L.length + 1 := by simp
  by_cases hL : L.length ≤ N
  · rw [lastN_of_le N L hL]
    by_cases hfull : L.length = N
    · rw [if_pos (by simp; omega)]
      rw [lastN]
    · rw [if_neg (by simp; omega)]
      exact (lastN_of_le N (L ++ [m]) (by omega)).symm
  · have h20 : (lastN N L).length = N := by omega
    rw [if_pos (by omega)]
    have hidx : (lastN N L ++ [m]).length - N = 1 := by omega
    rw [hidx, List.drop_append_of_le_length (by omega)]
    rw [lastN, lastN, List.drop_drop]
    rw [List.drop_append_of_le_length (show (L ++ [m]).length - N ≤ L.length by omega)]
    have hsame : L.length - N + 1 = (L ++ [m]).length - N := by omega
    rw [hsame]

/-- One trimmed append step for the history window of `brain.py`. -/
theorem trimMessages_step (L : List Message) (m : Message) :
    trimMessages (lastN (MAX_HISTORY_TURNS * 2) L ++ [m]) =
      lastN (MAX_HISTORY_TURNS * 2) (L ++ [m]) := by
  have h := lastN_append_one (MAX_HISTORY_TURNS * 2) (by decide) L m
  rw [trimMessages]
  exact h

theorem applyHistOps_messages (now : Int) (ops : List HistOp) :
    ∀ (conv : Conversation) (L : List Message),
      conv.messages = lastN (MAX_HISTORY_TURNS * 2) L →
      (applyHistOps now conv ops).messages =
        lastN (MAX_HISTORY_TURNS * 2) (L ++ ops.map HistOp.message) := by
  induction ops with
  | nil =>
    intro conv L h
    simpa [applyHistOps] using h
  | cons op ops ih =>
    intro conv L h
    have hstep : (applyHistOp now conv op).messages =
        lastN (MAX_HISTORY_TURNS * 2) (L ++ [op.message]) := by
      cases op with
      | user s =>
        rw [applyHistOp, Conversation.add_user_message_messages, h]
        exact trimMessages_step L _
      | assistant s =>
        rw [applyHistOp, Conversation.add_assistant_message_messages, h]
        exact trimMessages_step L _
    have := ih (applyHistOp now conv op) (L ++ [op.message]) hstep
    simpa [applyHistOps, List.append_assoc] using this

/-- Claim C4: from any conversation whose history is within the bound,
after any sequence of `add_user_message` / `add_assistant_message` calls
the stored message count never exceeds `MAX_HISTORY_TURNS * 2`, and the
retained messages are exactly the most recent `MAX_HISTORY_TURNS * 2` of
all messages ever appended, in insertion order (oldest dropped first). -/
theorem history_bounded (now : Int) (conv : Conversation) (ops : List HistOp)
    (h : conv.messages.length ≤ MAX_HISTORY_TURNS * 2) :
    (applyHistOps now conv ops).messages.length ≤ MAX_HISTORY_TURNS * 2 ∧
    (applyHistOps now conv ops).messages =
      lastN (MAX_HISTORY_TURNS * 2) (conv.messages ++ ops.map HistOp.message) := by
  have h0 : conv.messages = lastN (MAX_HISTORY_TURNS * 2) conv.messages :=
    (lastN_of_le _ _ h).symm
  have hmain := applyHistOps_messages now ops conv conv.messages h0
  refine ⟨?_, hmain⟩
  rw [hmain, lastN_length]
  omega

/-- Witness for C4: 21 user/assistant appends on an empty conversation
keep exactly the most recent 20 messages. -/
theorem history_bounded_witness :
    (applyHistOps 0 {}
        (List.replicate 21 (HistOp.user "m"))).messages.length
        ≤ MAX_HISTORY_TURNS * 2 ∧
    (applyHistOps 0 {} (List.replicate 21 (HistOp.user "m"))).messages =
      lastN (MAX_HISTORY_TURNS * 2)
        (Conversation.messages {} ++
          (List.replicate 21 (HistOp.user "m")).map HistOp.message) :=
  history_bounded 0 {} (List.replicate 21 (HistOp.user "m")) (by decide)

/-! ### C5: a wake phrase activates the conversation and is stripped -/

/-- Claim C5: for every transcript containing a wake phrase,
`process_input` leaves the conversation active with its interaction timer
reset to `now`, never ignores the transcript, and — whenever intent
resolution is reached — passes it the wake-phrase-stripped transcript. -/
theorem wake_phrase_activates_and_strips (now : Int) (transcript : String)
    (oracle : LLMOutcome) (conv : Conversation)
    (hw : contains_wake_phrase transcript = true) :
    (process_input now transcript oracle conv).conversation.is_active = true ∧
    (process_input now transcript oracle conv).conversation.last_interaction
      = now ∧
    (process_input now transcript oracle conv).response ≠ .ignored ∧
    ((process_input now transcript oracle conv).llmQuery = none ∨
     (process_input now transcript oracle conv).llmQuery =
       some (strip_wake_phrase transcript)) := by
  simp only [process_input, hw, Bool.not_true, Bool.false_and, Bool.false_eq_true,
    if_false, if_true]
  rcases oracle with ans | ⟨ans, pa0⟩ <;>
    (repeat' split) <;>
    simp [llmBranch, clean_transcript, hw]

/-- Witness for C5 on the spec scenario: the wake phrase is stripped to
exactly the remaining question, the session activates and the clean
transcript is what intent resolution receives. -/
theorem wake_phrase_activates_and_strips_witness :
    strip_wake_phrase c5Transcript = c5Clean ∧
    ((process_input 5 c5Transcript (.plain "Four.") {}).conversation.is_active
        = true ∧
     (process_input 5 c5Transcript (.plain "Four.") {}).conversation.last_interaction
        = 5 ∧
     (process_input 5 c5Transcript (.plain "Four.") {}).response ≠ .ignored ∧
     ((process_input 5 c5Transcript (.plain "Four.") {}).llmQuery = none ∨
      (process_input 5 c5Transcript (.plain "Four.") {}).llmQuery =
        some (strip_wake_phrase c5Transcript))) :=
  ⟨by decide,
   wake_phrase_activates_and_strips 5 c5Transcript (.plain "Four.") {} (by decide)⟩

/-! ### C1: clearing of the pending action on the next processed turn

The claim as stated fails: a transcript that is only a wake phrase is
processed (it is answered with "Yes?") yet leaves the pending action in
place, because the empty-clean-transcript check runs before the
pending-action check. -/

/-- Counterexample to C1 as stated: with a pending action present, the
wake-phrase-only transcript "hey wink" is processed (not ignored — it is
answered with "Yes?" and recorded in history), yet the pending action
survives the turn. -/
theorem pending_survives_wake_only_counterexample :
    (process_input 10 "hey wink" (.plain "x")
        { last_interaction := 0, is_active := true,
          pending_action := some ⟨"laptop-1", "open chrome", "laptop"⟩ }).response
      = .simple "Yes?" ∧
    (process_input 10 "hey wink" (.plain "x")
        { last_interaction := 0, is_active := true,
          pending_action := some ⟨"laptop-1", "open chrome", "laptop"⟩
        }).conversation.pending_action
      = some ⟨"laptop-1", "open chrome", "laptop"⟩ ∧
    (process_input 10 "hey wink" (.plain "x")
        { last_interaction := 0, is_active := true,
          pending_action := some ⟨"laptop-1", "open chrome", "laptop"⟩
        }).conversation.messages.length = 2 := by
  decide

/-- Amended C1: at most one pending action ever exists (it is a single
optional field), and on any processed (non-ignored) transcript whose clean
transcript is non-empty after wake-phrase stripping, the pending action
present at the start of the turn is cleared — any pending action remaining
afterwards is the fresh proposal of this turn's intent resolution.  (A
wake-phrase-only transcript, empty after stripping, is answered with
"Yes?" and leaves the pending action in place.) -/
theorem pending_cleared_on_nonempty_processed (now : Int) (transcript : String)
    (oracle : LLMOutcome) (conv : Conversation)
    (hproc : (process_input now transcript oracle conv).response ≠ .ignored)
    (hne : ¬ py_strip (clean_transcript transcript) = "") :
    (process_input now transcript oracle conv).conversation.pending_action
      = none ∨
    (process_input now transcript oracle conv).conversation.pending_action
      = oracle.proposal := by
  have hg : (!contains_wake_phrase transcript && !(conv.check_active now).1)
      = false := by
    by_contra hcon
    rw [Bool.not_eq_false] at hcon
    apply hproc
    simp [process_input, hcon]
  clear hproc
  simp only [process_input, hg, Bool.false_eq_true, if_false]
  rcases oracle with ans | ⟨ans, pa0⟩ <;>
    (repeat' split) <;>
    simp_all [llmBranch, LLMOutcome.proposal]

/-- Witness for amended C1: an unrelated transcript with a pending action
present clears it. -/
theorem pending_cleared_on_nonempty_processed_witness :
    (process_input 1 "open the door" (.plain "ok")
        { is_active := true, pending_action := some ⟨"d", "g", "laptop"⟩
        }).conversation.pending_action = none ∨
    (process_input 1 "open the door" (.plain "ok")
        { is_active := true, pending_action := some ⟨"d", "g", "laptop"⟩
        }).conversation.pending_action = (LLMOutcome.plain "ok").proposal :=
  pending_cleared_on_nonempty_processed 1 "open the door" (.plain "ok")
    { is_active := true, pending_action := some ⟨"d", "g", "laptop"⟩ }
    (by decide) (by decide)

/-! ### C3: confirmation of a pending action -/

theorem stripBoth_eq_nil_of_forall {p : Char → Bool} {l : List Char}
    (h : ∀ c ∈ l, p c = true) : stripBoth p l = [] := by
  have h1 : l.dropWhile p = [] := List.dropWhile_eq_nil_iff.mpr h
  simp [stripBoth, h1]

theorem forall_mem_of_stripBoth_eq_nil {p : Char → Bool} {l : List Char}
    (h : stripBoth p l = []) : ∀ c ∈ l, p c = true := by
  have h2 : (l.dropWhile p).reverse.dropWhile p = [] := by
    have h3 := congrArg List.reverse h
    simpa [stripBoth] using h3
  have h4 : ∀ c ∈ l.dropWhile p, p c = true := by
    intro c hc
    exact List.dropWhile_eq_nil_iff.mp h2 c (List.mem_reverse.mpr hc)
  intro c hc
  rw [← List.takeWhile_append_dropWhile p l] at hc
  rcases List.mem_append.mp hc with h5 | h5
  · exact List.mem_takeWhile_imp h5
  · exact h4 c h5

/-- A transcript that matches a confirmation pattern cannot be whitespace
only, so the empty-clean-transcript branch of `process_input` is not
taken. -/
theorem is_confirmation_py_strip_ne (s : String)
    (h : is_confirmation s = true) : ¬ py_strip s = "" := by
  intro hempty
  have hnil : stripBoth isPySpace s.data = [] := by
    have h1 := congrArg String.data hempty
    simpa [py_strip] using h1
  have hall : ∀ c ∈ s.data, isPySpace c = true :=
    forall_mem_of_stripBoth_eq_nil hnil
  have hall2 : ∀ c ∈ s.data.map lowerChar, isPySpace c = true := by
    intro c hc
    rcases List.mem_map.mp hc with ⟨c0, hc0, rfl⟩
    have hsp := hall c0 hc0
    have hfix : lowerChar c0 = c0 := by
      rw [lowerChar, if_neg]
      simp only [isPySpace, Bool.or_eq_true, decide_eq_true_eq] at hsp
      rcases hsp with ((((h | h) | h) | h) | h) | h <;> omega
    rw [hfix]
    exact hsp
  have hnil2 : stripBoth isPySpace (s.data.map lowerChar) = [] :=
    stripBoth_eq_nil_of_forall hall2
  simp only [is_confirmation] at h
  rw [hnil2] at h
  have hfalse : CONFIRMATION_PATTERNS.any (fun kw => hasPrefixWordB kw [])
      = false := by decide
  rw [hfalse] at h
  cases h

/-- Counterexample to C3 as stated: a pending action exists and the
wake-stripped transcript "hey wink, yes" is a confirmation, but because
more than `CONVERSATION_TIMEOUT` seconds have passed, `check_active`
drops the stale pending action first and the confirmation falls through
to intent resolution instead of producing the `DeviceActionResponse`. -/
theorem stale_confirmation_counterexample :
    Conversation.pending_action
        { last_interaction := 0, is_active := true,
          pending_action := some ⟨"laptop-1", "open chrome", "laptop"⟩ }
      = some ⟨"laptop-1", "open chrome", "laptop"⟩ ∧
    is_confirmation (clean_transcript "hey wink, yes") = true ∧
    (process_input 100 "hey wink, yes" (.plain "hello")
        { last_interaction := 0, is_active := true,
          pending_action := some ⟨"laptop-1", "open chrome", "laptop"⟩ }).response
      = .simple "hello" ∧
    (process_input 100 "hey wink, yes" (.plain "hello")
        { last_interaction := 0, is_active := true,
          pending_action := some ⟨"laptop-1", "open chrome", "laptop"⟩ }).response
      ≠ .deviceAction "On it." "laptop-1" "open chrome" "laptop" := by
  decide

/-- Amended C3: when a pending action exists, the (possibly
wake-phrase-stripped) transcript matches a confirmation pattern, the
transcript is not ignored (wake phrase present or conversation active),
and the conversation has not exceeded the inactivity timeout (otherwise
the stale pending action is dropped by the activity check and the input
falls through to intent resolution), `process_input` returns a
`DeviceActionResponse` carrying the pending action's fields with answer
"On it.", appends the user transcript and the answer to history, clears
the pending action, and does not call intent resolution. -/
theorem confirmation_executes_pending (now : Int) (transcript : String)
    (oracle : LLMOutcome) (conv : Conversation) (pa : PendingAction)
    (hp : conv.pending_action = some pa)
    (hc : is_confirmation (clean_transcript transcript) = true)
    (hgate : contains_wake_phrase transcript = true ∨ conv.is_active = true)
    (hfresh : conv.is_active = true →
      now - conv.last_interaction ≤ CONVERSATION_TIMEOUT) :
    (process_input now transcript oracle conv).response =
      .deviceAction "On it." pa.device_id pa.goal pa.task_type ∧
    (process_input now transcript oracle conv).conversation =
      (((if contains_wake_phrase transcript then conv.activate now
         else conv).add_user_message now transcript).add_assistant_message
            now "On it.").clear_pending_action ∧
    (process_input now transcript oracle conv).llmQuery = none := by
  have hca := Conversation.check_active_fresh now conv hfresh
  have hne := is_confirmation_py_strip_ne _ hc
  rcases hwake : contains_wake_phrase transcript
  · have ha : conv.is_active = true := by
      rcases hgate with h | h
      · rw [hwake] at h; cases h
      · exact h
    simp only [process_input, hca, hwake, ha, Bool.not_true, Bool.not_false,
      Bool.true_and, Bool.false_and, Bool.and_false, Bool.false_eq_true,
      if_false, Bool.true_eq_false]
    rw [if_neg hne]
    simp [hp, hc]
  · simp only [process_input, hca, hwake, Bool.not_true, Bool.false_and,
      Bool.false_eq_true, if_false, if_true]
    rw [if_neg hne]
    simp [hp, hc]

/-- Witness for amended C3 on the spec scenario: the user says
"yeah do it" while `\x7bdevice_id: laptop-1, goal: open chrome\x7d` is
pending, within the timeout window. -/
theorem confirmation_executes_pending_witness :
    (process_input 5 "yeah do it" (.plain "x")
        { last_interaction := 0, is_active := true,
          pending_action := some ⟨"laptop-1", "open chrome", "laptop"⟩ }).response
      = .deviceAction "On it." "laptop-1" "open chrome" "laptop" ∧
    (process_input 5 "yeah do it" (.plain "x")
        { last_interaction := 0, is_active := true,
          pending_action := some ⟨"laptop-1", "open chrome", "laptop"⟩
        }).conversation =
      (((if contains_wake_phrase "yeah do it" then
            Conversation.activate 5
              { last_interaction := 0, is_active := true,
                pending_action := some ⟨"laptop-1", "open chrome", "laptop"⟩ }
         else
            { last_interaction := 0, is_active := true,
              pending_action := some ⟨"laptop-1", "open chrome", "laptop"⟩
            }).add_user_message 5 "yeah do it").add_assistant_message
          5 "On it.").clear_pending_action ∧
    (process_input 5 "yeah do it" (.plain "x")
        { last_interaction := 0, is_active := true,
          pending_action := some ⟨"laptop-1", "open chrome", "laptop"⟩
        }).llmQuery = none :=
  confirmation_executes_pending 5 "yeah do it" (.plain "x")
    { last_interaction := 0, is_active := true,
      pending_action := some ⟨"laptop-1", "open chrome", "laptop"⟩ }
    ⟨"laptop-1", "open chrome", "laptop"⟩ rfl (by decide) (Or.inr rfl)
    (by intro _; decide)
